import Mathlib

/-!
Shallow embedding of the CoFI regularization-term algebra
(`src/cofi/utils/_reg_base.py` and `src/cofi/utils/_reg_lp_norm.py`).

Real-valued numpy arrays are modelled as `NDArray` (a shape tuple plus the
raveled row-major data), numpy scalars as `ℝ`, and the float constructor
arguments `p` and `factor` as `ℚ` (every Python float is a rational number,
which makes the construction-time comparisons `p <= 0` and `factor < 0`
decidable).  A raised Python exception is modelled by a `RegError` tag naming
the exception class; every fallible operation returns `Except RegError _`.
-/

open scoped Matrix BigOperators

abbrev Vec (n : ℕ) := Fin n → ℝ

abbrev Mat (r c : ℕ) := Matrix (Fin r) (Fin c) ℝ

/-- Model of a numpy ndarray: its shape tuple and its raveled (row-major) data. -/
structure NDArray where
  shape : List ℕ
  data : List ℝ

/-- Tags for the Python exception classes raised by the regularization code:
DimensionMismatchError, ValueError, TypeError, NotImplementedError and
AttributeError.  The final tag `silentBroadcast` is not an exception: it marks
the outcomes of `QuadraticReg.reg`/`gradient` with a stored reference model of
dimension at least two that numpy broadcasting accepts, where Python silently
returns an array of dimension at least two — a value outside the scalar- and
vector-typed codomains of this embedding.  No claim relies on those outcomes;
the tag only keeps the evaluators total without pretending Python raises
there. -/
inductive RegError where
  | dimensionMismatch
  | valueError
  | typeError
  | notImplementedError
  | attributeError
  | silentBroadcast
  deriving DecidableEq

/-- The Python `model_size` argument of `QuadraticReg`: either a plain number or
a shape tuple (the code distinguishes the two with `np.ndim` / `isinstance`). -/
inductive SizeArg where
  | num (n : ℕ)
  | shape (l : List ℕ)
  deriving DecidableEq

/-- Embeds the `QuadraticReg.model_size` property: the raw number itself, or the
product of the entries of the shape tuple. -/
def SizeArg.size : SizeArg → ℕ
  | .num n => n
  | .shape l => l.prod

/-- Embeds the inherited `BaseRegularization.model_size` computation
`reduce(lambda a, b: a * b, np.array(self.model_shape), 1)`: over a shape tuple
`np.array` is 1-D and the reduce yields the product, but over a plain number
`np.array` gives a 0-d array, and iterating a 0-d array raises a TypeError. -/
def SizeArg.reduceSize : SizeArg → Except RegError ℕ
  | .num _ => .error .typeError
  | .shape l => .ok l.prod

/-- The module-level `REG_TYPES` dictionary of `_reg_lp_norm.py`. -/
def REG_TYPES : List (String × ℕ) :=
  [("damping", 0), ("flattening", 1), ("roughening", 1), ("smoothing", 2)]

/-- Dictionary lookup `REG_TYPES[s]` (with `none` for a missing key). -/
def regTypeOrder (s : String) : Option ℕ := REG_TYPES.lookup s

def vecOfList (n : ℕ) (l : List ℝ) : Vec n := fun i => l.getD i 0

def listOfVec {n : ℕ} (v : Vec n) : List ℝ := List.ofFn v

def listsOfMat {r c : ℕ} (A : Mat r c) : List (List ℝ) :=
  List.ofFn (fun i => List.ofFn (fun j => A i j))

/-- numpy elementwise `-` between a length-`n` 1-D array and another (raveled)
1-D array, restricted to the shape-preserving cases the library exercises:
equal lengths, or a length-one right operand broadcast against the left; any
other combination raises a ValueError in numpy. -/
def npSubVL (n : ℕ) (v : Vec n) (r : List ℝ) : Except RegError (Vec n) :=
  if r.length = n then .ok (fun i => v i - r.getD i 0)
  else if r.length = 1 then .ok (fun i => v i - r.headD 0)
  else .error .valueError

/-- numpy elementwise `+` between two 1-D arrays (shape-preserving cases:
equal lengths or a length-one operand broadcast over the other). -/
def npAddV (a b : List ℝ) : Except RegError (List ℝ) :=
  if a.length = b.length then .ok (List.zipWith (· + ·) a b)
  else if a.length = 1 then .ok (b.map (fun x => a.headD 0 + x))
  else if b.length = 1 then .ok (a.map (fun x => x + b.headD 0))
  else .error .valueError

/-- numpy elementwise `+` between two 2-D arrays of equal shape (the only case
the composite Hessian sum exercises; other shapes raise in numpy). -/
def npAddM (A B : List (List ℝ)) : Except RegError (List (List ℝ)) :=
  if A.map List.length = B.map List.length then
    .ok (List.zipWith (List.zipWith (· + ·)) A B)
  else .error .valueError

/-- Modelled from the spec: entry `(r, c)` of the 1-D `order`-th derivative
operator of size `M` produced by the external `findiff` package
(`findiff.FinDiff(0, 1, order).matrix((M,))`, which is not part of this
repository).  Per the spec and the `QuadraticReg` docstring it uses central
second-order differences in the interior rows and one-sided second-order
stencils in the two boundary rows. -/
noncomputable def fdCoeff (order M r c : ℕ) : ℝ :=
  if order = 1 then
    if r = 0 then
      if c = 0 then -1.5 else if c = 1 then 2 else if c = 2 then -0.5 else 0
    else if r = M - 1 then
      if c = M - 3 then 0.5 else if c = M - 2 then -2 else if c = M - 1 then 1.5 else 0
    else
      if c + 1 = r then -0.5 else if c = r + 1 then 0.5 else 0
  else if order = 2 then
    if r = 0 then
      if c = 0 then 2 else if c = 1 then -5 else if c = 2 then 4
      else if c = 3 then -1 else 0
    else if r = M - 1 then
      if c = M - 4 then -1 else if c = M - 3 then 4 else if c = M - 2 then -5
      else if c = M - 1 then 2 else 0
    else
      if c + 1 = r then 1 else if c = r then -2 else if c = r + 1 then 1 else 0
  else 0

/-- The 1-D `order`-th derivative matrix `d_dx.matrix((M,))`. -/
noncomputable def finDiff1D (order M : ℕ) : Mat M M :=
  fun i j => fdCoeff order M i.val j.val

/-- Modelled from the spec: the x-direction derivative operator built by findiff
on an `(nx, ny)` grid flattened row-major (declared at size `n = nx * ny`): the
1-D stencil acts along axis 0, i.e. between entries with equal index mod `ny`. -/
noncomputable def fd2Dx (order nx ny n : ℕ) : Mat n n :=
  fun i j =>
    if i.val % ny = j.val % ny then fdCoeff order nx (i.val / ny) (j.val / ny) else 0

/-- Modelled from the spec: the y-direction derivative operator on an `(nx, ny)`
grid flattened row-major: the 1-D stencil of size `ny` acts along axis 1, block
diagonally in the row blocks. -/
noncomputable def fd2Dy (order ny n : ℕ) : Mat n n :=
  fun i j =>
    if i.val / ny = j.val / ny then fdCoeff order ny (i.val % ny) (j.val % ny) else 0

/-- Vertical concatenation `np.vstack` of two matrices with equal column count. -/
def vstackMat {a b c : ℕ} (A : Mat a c) (B : Mat b c) : Mat (a + b) c :=
  fun i j =>
    if h : i.val < a then A ⟨i.val, h⟩ j
    else B ⟨i.val - a, by have hi := i.isLt; omega⟩ j

/-- Reads a 2-D numpy array (of declared shape `rows × cols`) as a matrix. -/
def matOfNDArray (rows cols : ℕ) (a : NDArray) : Mat rows cols :=
  fun i j => a.data.getD (i.val * cols + j.val) 0

/-- A regularization term after construction.  `lp` and `quad` hold the state of
`LpNormRegularization` / `QuadraticReg` instances: order `p` resp. `factor`, the
shape/size argument, the generated weighting matrix and the stored reference
model.  `add` and `smul` are the two modes of `CompositeRegularization` (field
`other` set, resp. field `coefficient` set); a term built through `__add__` or
`__rmul__` always has exactly one of the two modes. -/
inductive RegTerm : Type where
  | lp (p : ℝ) (shape : List ℕ) (rows : ℕ) (D : Mat rows shape.prod)
      (refModel : Option NDArray)
  | quad (factor : ℝ) (msize : SizeArg) (regType : Option String)
      (refModel : Option NDArray) (rows : ℕ) (D : Mat rows msize.size)
  | add (t1 t2 : RegTerm)
  | smul (k : ℝ) (t : RegTerm)

/-- The `model_shape` property: `LpNormRegularization` returns its shape tuple,
`QuadraticReg` returns its raw `model_size` argument (a number or a shape), and
`CompositeRegularization` returns its base (left) operand's `model_shape`. -/
def RegTerm.model_shape : RegTerm → SizeArg
  | .lp _ shape _ _ _ => .shape shape
  | .quad _ msize _ _ _ _ => msize
  | .add t1 _ => t1.model_shape
  | .smul _ t => t.model_shape

/-- The `model_size` property.  The two leaf classes never raise:
`LpNormRegularization` keeps the inherited `BaseRegularization.model_size`
over its shape tuple, and `QuadraticReg` overrides it (`np.ndim` test: the raw
number itself, or the product of the shape).  `CompositeRegularization` does
not override, so it runs the inherited reduce over its base operand's
`model_shape` — which raises a TypeError when that base chain ends in a
`QuadraticReg` holding a numeric `model_size` (iteration over the 0-d
`np.array` of that number). -/
def RegTerm.model_size : RegTerm → Except RegError ℕ
  | .lp _ shape _ _ _ => .ok shape.prod
  | .quad _ msize _ _ _ _ => .ok msize.size
  | .add t1 _ => t1.model_shape.reduceSize
  | .smul _ t => t.model_shape.reduceSize

/-- Embeds `_validate_model`: ravels the model and checks the flattened size
against `model_size`, raising DimensionMismatchError on a mismatch. -/
def validateModel (M : ℕ) (model : NDArray) : Except RegError (Vec M) :=
  if model.data.length = M then .ok (vecOfList M model.data)
  else .error .dimensionMismatch

/-- Embeds `LpNormRegularization._model_diff_to_ref`: the flattened model minus
the raveled reference model (or the model itself when there is none). -/
def modelDiffToRef (M : ℕ) (flat : Vec M) : Option NDArray → Except RegError (Vec M)
  | none => .ok flat
  | some r => npSubVL M flat r.data

/-- Python `d.T @ d` for a 1-D array `d`: the sum of its squared entries. -/
def dotSelfList (l : List ℝ) : ℝ := (l.map (fun x => x * x)).sum

/-- numpy `flat_m - self._ref_model` as computed on the damping branches of
`QuadraticReg.reg` and `QuadraticReg.gradient`: unlike
`LpNormRegularization._model_diff_to_ref` the stored reference is NOT raveled,
so broadcasting runs against its full shape.  With `flat_m` of shape `(n,)`:
a 0-d or shape-`(1,)` reference broadcasts to `(n,)`; a shape-`(n,)` reference
subtracts elementwise; when `n = 1`, any 1-D reference broadcasts, giving a 1-D
result of the reference's length; any other 1-D shape raises a ValueError.  A
reference of dimension two or more either fails to broadcast (last dimension
neither `1` nor `n` while `n ≠ 1`, a ValueError) or silently yields an array of
dimension at least two, which the 1-D-valued embedding tags `silentBroadcast`
(not a Python exception — see `RegError`). -/
def npSubRef1D (n : ℕ) (v : Vec n) (r : NDArray) : Except RegError (List ℝ) :=
  match r.shape with
  | [] => .ok (List.ofFn (fun i : Fin n => v i - r.data.headD 0))
  | [m] =>
    if m = 1 then .ok (List.ofFn (fun i : Fin n => v i - r.data.headD 0))
    else if m = n then .ok (List.ofFn (fun i : Fin n => v i - r.data.getD i 0))
    else if n = 1 then .ok (r.data.map (fun x => (listOfVec v).headD 0 - x))
    else .error .valueError
  | s =>
    if s.getLast? = some n ∨ s.getLast? = some 1 ∨ n = 1 then .error .silentBroadcast
    else .error .valueError

/-- Embeds `_lp_norm`: `np.sum(np.abs(mat) ** p)` (real exponentiation). -/
noncomputable def lpNorm (p : ℝ) {n : ℕ} (v : Vec n) : ℝ := ∑ i, |v i| ^ p

/-- Embeds `_lp_norm_gradient`: `p * np.abs(mat) ** (p - 1) * np.sign(mat)`. -/
noncomputable def lpNormGradVec (p : ℝ) {n : ℕ} (v : Vec n) : Vec n :=
  fun i => p * |v i| ^ (p - 1) * Real.sign (v i)

/-- Embeds `_lp_norm_hessian`: `p * (p - 1) * np.abs(mat) ** (p - 2)`. -/
noncomputable def lpNormHessVec (p : ℝ) {n : ℕ} (v : Vec n) : Vec n :=
  fun i => p * (p - 1) * |v i| ^ (p - 2)

/-- The `reg` evaluator of every term (`LpNormRegularization.reg`,
`QuadraticReg.reg`, `CompositeRegularization.reg`). -/
noncomputable def RegTerm.reg : RegTerm → NDArray → Except RegError ℝ
  | .lp p shape _ D m0, model =>
    match validateModel shape.prod model with
    | .error e => .error e
    | .ok flat =>
      match modelDiffToRef shape.prod flat m0 with
      | .error e => .error e
      | .ok dm => .ok (lpNorm p (D *ᵥ dm))
  | .quad factor msize regType refM _ D, model =>
    match validateModel msize.size model with
    | .error e => .error e
    | .ok flat =>
      if regType = some "damping" then
        match refM with
        | none => .ok (factor * (flat ⬝ᵥ flat))
        | some rm =>
          match npSubRef1D msize.size flat rm with
          | .error e => .error e
          | .ok dr => .ok (factor * dotSelfList dr)
      else
        .ok (factor * ((D *ᵥ flat) ⬝ᵥ (D *ᵥ flat)))
  | .add t1 t2, model =>
    match t1.reg model with
    | .error e => .error e
    | .ok r1 =>
      match t2.reg model with
      | .error e => .error e
      | .ok r2 => .ok (r1 + r2)
  | .smul k t, model =>
    match t.reg model with
    | .error e => .error e
    | .ok r => .ok (k * r)

/-- The `gradient` evaluator of every term. -/
noncomputable def RegTerm.gradient : RegTerm → NDArray → Except RegError (List ℝ)
  | .lp p shape _ D m0, model =>
    match validateModel shape.prod model with
    | .error e => .error e
    | .ok flat =>
      match modelDiffToRef shape.prod flat m0 with
      | .error e => .error e
      | .ok dm => .ok (listOfVec (Dᵀ *ᵥ lpNormGradVec p (D *ᵥ dm)))
  | .quad factor msize regType refM _ D, model =>
    match validateModel msize.size model with
    | .error e => .error e
    | .ok flat =>
      if regType = some "damping" then
        match refM with
        | none => .ok (listOfVec (fun i => 2 * factor * flat i))
        | some rm =>
          match npSubRef1D msize.size flat rm with
          | .error e => .error e
          | .ok dr => .ok (dr.map (fun x => 2 * factor * x))
      else
        .ok (listOfVec ((((2 * factor) • Dᵀ) * D) *ᵥ flat))
  | .add t1 t2, model =>
    match t1.gradient model with
    | .error e => .error e
    | .ok g1 =>
      match t2.gradient model with
      | .error e => .error e
      | .ok g2 => npAddV g1 g2
  | .smul k t, model =>
    match t.gradient model with
    | .error e => .error e
    | .ok g => .ok (g.map (fun x => k * x))

/-- The `hessian` evaluator of every term.  Note that `QuadraticReg.hessian`
does not call `_validate_model`: its model argument is ignored entirely.  (On
the damping branch the Python code calls `np.eye(self._model_size)` with the
raw size argument, which for damping is guaranteed to be a plain number by
`_generate_matrix`; this embedding uses `msize.size` which agrees there.) -/
noncomputable def RegTerm.hessian : RegTerm → NDArray → Except RegError (List (List ℝ))
  | .lp p shape _ D m0, model =>
    match validateModel shape.prod model with
    | .error e => .error e
    | .ok flat =>
      match modelDiffToRef shape.prod flat m0 with
      | .error e => .error e
      | .ok dm =>
        .ok (listsOfMat (Dᵀ * Matrix.diagonal (lpNormHessVec p (D *ᵥ dm)) * D))
  | .quad factor msize regType _ _ D, _ =>
    if regType = some "damping" then
      .ok (listsOfMat ((2 * factor) • (1 : Mat msize.size msize.size)))
    else
      .ok (listsOfMat (((2 * factor) • Dᵀ) * D))
  | .add t1 t2, model =>
    match t1.hessian model with
    | .error e => .error e
    | .ok h1 =>
      match t2.hessian model with
      | .error e => .error e
      | .ok h2 => npAddM h1 h2
  | .smul k t, model =>
    match t.hessian model with
    | .error e => .error e
    | .ok h => .ok (h.map (List.map (fun x => k * x)))

/-- Embeds `BaseRegularization.__add__` (both operands are regularization terms,
so the isinstance TypeError branch is unrepresentable): evaluates both
`model_size` properties — left first, and either may itself raise, see
`RegTerm.model_size` — then raises DimensionMismatchError unless they agree,
and otherwise builds the composite term. -/
def addReg (t1 t2 : RegTerm) : Except RegError RegTerm :=
  match t1.model_size with
  | .error e => .error e
  | .ok n1 =>
    match t2.model_size with
    | .error e => .error e
    | .ok n2 =>
      if n1 = n2 then .ok (.add t1 t2) else .error .dimensionMismatch

/-- The left operand of Python `*` applied to a term: either a number, or some
non-numeric object. -/
inductive RMulArg where
  | num (k : ℝ)
  | nonNumeric

/-- Embeds `BaseRegularization.__rmul__`: a numeric coefficient builds the
scalar-multiple composite term; anything else raises a TypeError. -/
def rmulReg : RMulArg → RegTerm → Except RegError RegTerm
  | .num k, t => .ok (.smul k t)
  | .nonNumeric, _ => .error .typeError

/-- The `weighting_matrix` argument of `LpNormRegularization`: a string kind, a
matrix-like array, or None. -/
inductive WeightingArg where
  | str (s : String)
  | arr (a : NDArray)
  | noneArg

/-- Embeds `LpNormRegularization._validate_shape`: resolve the model shape from
the `model_shape` and `reference_model` arguments. -/
def validateShape : Option (List ℕ) → Option NDArray → Except RegError (List ℕ)
  | none, none => .error .valueError
  | none, some r => .ok r.shape
  | some s, none => .ok s
  | some s, some r => if r.shape = s then .ok s else .error .dimensionMismatch

/-- Embeds `LpNormRegularization._generate_matrix` and packages the resulting
state into an `lp` term.  Two slips of the source are reproduced faithfully:
the 2-D branch guards on `nx > order + 2 or ny < order + 2` (a `>` where the
sibling `QuadraticReg` code has `<`), and both raise statements interpolate
`self._reg_type`, an attribute `LpNormRegularization` never sets, so the raise
itself crashes with an AttributeError. -/
noncomputable def genLpMatrix (p : ℝ) (wm : WeightingArg) (shape : List ℕ)
    (refModel : Option NDArray) : Except RegError RegTerm :=
  match wm with
  | .noneArg => .ok (.lp p shape shape.prod 1 refModel)
  | .str s =>
    if (regTypeOrder s).isSome then
      if s = "damping" then .ok (.lp p shape shape.prod 1 refModel)
      else
        match shape with
        | [n1] =>
          if ([n1] : List ℕ).prod < (regTypeOrder s).getD 0 + 2 then
            .error .attributeError
          else
            .ok (.lp p [n1] ([n1] : List ℕ).prod
              (finDiff1D ((regTypeOrder s).getD 0) ([n1] : List ℕ).prod) refModel)
        | [nx, ny] =>
          if (regTypeOrder s).getD 0 + 2 < nx ∨ ny < (regTypeOrder s).getD 0 + 2 then
            .error .attributeError
          else
            .ok (.lp p [nx, ny] (([nx, ny] : List ℕ).prod + ([nx, ny] : List ℕ).prod)
              (vstackMat
                (fd2Dx ((regTypeOrder s).getD 0) nx ny ([nx, ny] : List ℕ).prod)
                (fd2Dy ((regTypeOrder s).getD 0) ny ([nx, ny] : List ℕ).prod))
              refModel)
        | _ => .error .notImplementedError
    else .error .valueError
  | .arr a =>
    if a.shape.length ≠ 2 then .error .valueError
    else if a.shape.getD 1 0 ≠ shape.prod then .error .valueError
    else .ok (.lp p shape (a.shape.headD 0)
      (matOfNDArray (a.shape.headD 0) shape.prod a) refModel)

/-- Embeds `LpNormRegularization.__init__`: validate `p`, resolve the model
shape, store the reference model and generate the weighting matrix. -/
noncomputable def lpNormConstruct (p : ℚ) (wm : WeightingArg)
    (modelShape : Option (List ℕ)) (refModel : Option NDArray) :
    Except RegError RegTerm :=
  if p ≤ 0 then .error .valueError
  else
    match validateShape modelShape refModel with
    | .error e => .error e
    | .ok shape => genLpMatrix (p : ℝ) wm shape refModel

/-- Embeds `QuadraticReg._validate_reg_type`: None or a key of `REG_TYPES`. -/
def validRegType : Option String → Bool
  | none => true
  | some s => (regTypeOrder s).isSome

/-- Embeds `QuadraticReg._generate_matrix` and packages the state into a `quad`
term.  On the first/second-order branch with a singleton shape tuple the Python
guard compares a tuple against a number, a TypeError.  (Called only after
`_validate_reg_type`, so an unrecognized string never reaches this point.) -/
noncomputable def quadGenMatrix (factor : ℝ) (msize : SizeArg)
    (regType : Option String) (refModel byoMatrix : Option NDArray) :
    Except RegError RegTerm :=
  match regType with
  | some "damping" =>
    match msize with
    | .num n => .ok (.quad factor (.num n) (some "damping") refModel n (1 : Mat n n))
    | .shape _ => .error .valueError
  | some s =>
    match msize with
    | .num n =>
      if n < (regTypeOrder s).getD 0 + 2 then .error .valueError
      else .ok (.quad factor (.num n) (some s) refModel n
        (finDiff1D ((regTypeOrder s).getD 0) n))
    | .shape l =>
      match l with
      | [_] => .error .typeError
      | [nx, ny] =>
        if nx < (regTypeOrder s).getD 0 + 2 ∨ ny < (regTypeOrder s).getD 0 + 2 then
          .error .valueError
        else
          .ok (.quad factor (.shape [nx, ny]) (some s) refModel
            (([nx, ny] : List ℕ).prod + ([nx, ny] : List ℕ).prod)
            (vstackMat
              (fd2Dx ((regTypeOrder s).getD 0) nx ny ([nx, ny] : List ℕ).prod)
              (fd2Dy ((regTypeOrder s).getD 0) ny ([nx, ny] : List ℕ).prod)))
      | _ => .error .notImplementedError
  | none =>
    match msize with
    | .shape _ => .error .valueError
    | .num n =>
      match byoMatrix with
      | none => .ok (.quad factor (.num n) none refModel n (1 : Mat n n))
      | some a =>
        if a.shape.length ≠ 2 then .error .valueError
        else if a.shape.getD 1 0 ≠ n then .error .valueError
        else .ok (.quad factor (.num n) none refModel (a.shape.headD 0)
          (matOfNDArray (a.shape.headD 0) n a))

/-- Embeds `QuadraticReg.__init__`: validate the factor, validate the
regularization type, store the reference model and generate the matrix. -/
noncomputable def quadConstruct (factor : ℚ) (msize : SizeArg)
    (regType : Option String) (refModel byoMatrix : Option NDArray) :
    Except RegError RegTerm :=
  if factor < 0 then .error .valueError
  else if validRegType regType then
    quadGenMatrix (factor : ℝ) msize regType refModel byoMatrix
  else .error .valueError

/-- The reference-shifted residual of the spec formula `d = D @ (flatten(m) - m0)`:
the flattened model minus the (raveled) reference model, the latter taken as the
zero vector when absent. -/
def specResidual (M : ℕ) (mdata : List ℝ) (m0 : Option NDArray) : Vec M :=
  vecOfList M mdata - m0.elim 0 (fun a => vecOfList M a.data)

/-- C1 (counterexample): two perfectly valid composite terms over a
numeric-size QuadraticReg — each itself built by `__add__` from two size-one
damping terms and evaluable on a size-one model — cannot be added: the
inherited `model_size` property iterates the 0-d `np.array(1)` and raises a
TypeError inside `__add__` before any composite is built, refuting the claim
that `+` of any two equal-size terms yields the forwarding composite. -/
theorem composite_add_model_size_crash :
    addReg (RegTerm.quad 1 (.num 1) (some "damping") none 1 (1 : Mat 1 1))
        (RegTerm.quad 1 (.num 1) (some "damping") none 1 (1 : Mat 1 1)) =
      .ok (.add (RegTerm.quad 1 (.num 1) (some "damping") none 1 (1 : Mat 1 1))
        (RegTerm.quad 1 (.num 1) (some "damping") none 1 (1 : Mat 1 1))) ∧
    (RegTerm.add (RegTerm.quad 1 (.num 1) (some "damping") none 1 (1 : Mat 1 1))
        (RegTerm.quad 1 (.num 1) (some "damping") none 1 (1 : Mat 1 1))).reg ⟨[1], [2]⟩ =
      .ok (4 + 4) ∧
    (RegTerm.add (RegTerm.quad 1 (.num 1) (some "damping") none 1 (1 : Mat 1 1))
        (RegTerm.quad 1 (.num 1) (some "damping") none 1 (1 : Mat 1 1))).model_size =
      .error .typeError ∧
    addReg
      (RegTerm.add (RegTerm.quad 1 (.num 1) (some "damping") none 1 (1 : Mat 1 1))
        (RegTerm.quad 1 (.num 1) (some "damping") none 1 (1 : Mat 1 1)))
      (RegTerm.add (RegTerm.quad 1 (.num 1) (some "damping") none 1 (1 : Mat 1 1))
        (RegTerm.quad 1 (.num 1) (some "damping") none 1 (1 : Mat 1 1))) =
      .error .typeError :=
  ⟨rfl,
    by
      simp [RegTerm.reg, validateModel, SizeArg.size, vecOfList, Matrix.dotProduct,
        Fin.sum_univ_one] <;> norm_num,
    rfl, rfl⟩

/-- C1 (amended): for any two regularization terms whose `model_size`
properties evaluate without raising to the same number (the inherited
`model_size` raises a TypeError for a composite over a numeric-size
QuadraticReg, see the counterexample) and any model `m`, `__add__` succeeds
with the composite term, whose `reg`, `gradient` and `hessian` at `m` are
exactly the element-wise sums of the two children's values, each evaluation
forwarding to both children with no precomputation. -/
theorem composite_add_forwards (t1 t2 : RegTerm) (m : NDArray) (n : ℕ)
    (hs1 : t1.model_size = .ok n) (hs2 : t2.model_size = .ok n)
    (r1 r2 : ℝ) (h1 : t1.reg m = .ok r1) (h2 : t2.reg m = .ok r2)
    (g1 g2 : List ℝ) (hg1 : t1.gradient m = .ok g1) (hg2 : t2.gradient m = .ok g2)
    (hgl : g1.length = g2.length)
    (H1 H2 : List (List ℝ)) (hH1 : t1.hessian m = .ok H1) (hH2 : t2.hessian m = .ok H2)
    (hHl : H1.map List.length = H2.map List.length) :
    addReg t1 t2 = .ok (.add t1 t2) ∧
    (RegTerm.add t1 t2).reg m = .ok (r1 + r2) ∧
    (RegTerm.add t1 t2).gradient m = .ok (List.zipWith (· + ·) g1 g2) ∧
    (RegTerm.add t1 t2).hessian m = .ok (List.zipWith (List.zipWith (· + ·)) H1 H2) := by
  refine ⟨?_, ?_, ?_, ?_⟩
  · simp [addReg, hs1, hs2]
  · simp [RegTerm.reg, h1, h2]
  · simp [RegTerm.gradient, hg1, hg2, npAddV, hgl]
  · simp [RegTerm.hessian, hH1, hH2, npAddM, hHl]

/-- Witness for the amended C1 at two damping terms of size one and the model
`[2]`. -/
theorem composite_add_forwards_witness :
    addReg (RegTerm.quad 1 (.num 1) (some "damping") none 1 (1 : Mat 1 1))
        (RegTerm.quad 1 (.num 1) (some "damping") none 1 (1 : Mat 1 1)) =
      .ok (.add (RegTerm.quad 1 (.num 1) (some "damping") none 1 (1 : Mat 1 1))
        (RegTerm.quad 1 (.num 1) (some "damping") none 1 (1 : Mat 1 1))) ∧
    (RegTerm.add (RegTerm.quad 1 (.num 1) (some "damping") none 1 (1 : Mat 1 1))
        (RegTerm.quad 1 (.num 1) (some "damping") none 1 (1 : Mat 1 1))).reg ⟨[1], [2]⟩ =
      .ok (4 + 4) ∧
    (RegTerm.add (RegTerm.quad 1 (.num 1) (some "damping") none 1 (1 : Mat 1 1))
        (RegTerm.quad 1 (.num 1) (some "damping") none 1 (1 : Mat 1 1))).gradient ⟨[1], [2]⟩ =
      .ok (List.zipWith (· + ·) [4] [4]) ∧
    (RegTerm.add (RegTerm.quad 1 (.num 1) (some "damping") none 1 (1 : Mat 1 1))
        (RegTerm.quad 1 (.num 1) (some "damping") none 1 (1 : Mat 1 1))).hessian ⟨[1], [2]⟩ =
      .ok (List.zipWith (List.zipWith (· + ·)) [[2]] [[2]]) :=
  composite_add_forwards
    (RegTerm.quad 1 (.num 1) (some "damping") none 1 (1 : Mat 1 1))
    (RegTerm.quad 1 (.num 1) (some "damping") none 1 (1 : Mat 1 1))
    ⟨[1], [2]⟩ 1 rfl rfl 4 4
    (by simp [RegTerm.reg, validateModel, SizeArg.size, vecOfList, Matrix.dotProduct,
      Fin.sum_univ_one] <;> norm_num)
    (by simp [RegTerm.reg, validateModel, SizeArg.size, vecOfList, Matrix.dotProduct,
      Fin.sum_univ_one] <;> norm_num)
    [4] [4]
    (by simp [RegTerm.gradient, validateModel, SizeArg.size, vecOfList, listOfVec,
      List.ofFn_succ] <;> norm_num)
    (by simp [RegTerm.gradient, validateModel, SizeArg.size, vecOfList, listOfVec,
      List.ofFn_succ] <;> norm_num)
    rfl
    [[2]] [[2]]
    (by simp [RegTerm.hessian, SizeArg.size, listsOfMat, List.ofFn_succ, Matrix.smul_apply,
      Matrix.one_apply])
    (by simp [RegTerm.hessian, SizeArg.size, listsOfMat, List.ofFn_succ, Matrix.smul_apply,
      Matrix.one_apply])
    rfl

/-- C2: for every regularization term `t`, numeric scalar `k` (any real, also
negative) and model `m`, `__rmul__` builds the scalar composite, whose `reg`,
`gradient` and `hessian` are `k` times the base term's values; a non-numeric
left operand is rejected with a TypeError. -/
theorem composite_smul_forwards (k : ℝ) (t : RegTerm) (m : NDArray)
    (r : ℝ) (hr : t.reg m = .ok r)
    (g : List ℝ) (hg : t.gradient m = .ok g)
    (H : List (List ℝ)) (hH : t.hessian m = .ok H) :
    rmulReg (.num k) t = .ok (.smul k t) ∧
    (RegTerm.smul k t).reg m = .ok (k * r) ∧
    (RegTerm.smul k t).gradient m = .ok (g.map (fun x => k * x)) ∧
    (RegTerm.smul k t).hessian m = .ok (H.map (List.map (fun x => k * x))) ∧
    rmulReg .nonNumeric t = .error .typeError := by
  refine ⟨rfl, ?_, ?_, ?_, rfl⟩
  · simp [RegTerm.reg, hr]
  · simp [RegTerm.gradient, hg]
  · simp [RegTerm.hessian, hH]

/-- Witness for C2 at the scalar `-2`, a damping term of size one, model `[2]`. -/
theorem composite_smul_forwards_witness :
    rmulReg (.num (-2)) (RegTerm.quad 1 (.num 1) (some "damping") none 1 (1 : Mat 1 1)) =
      .ok (.smul (-2) (RegTerm.quad 1 (.num 1) (some "damping") none 1 (1 : Mat 1 1))) ∧
    (RegTerm.smul (-2) (RegTerm.quad 1 (.num 1) (some "damping") none 1
        (1 : Mat 1 1))).reg ⟨[1], [2]⟩ = .ok ((-2) * 4) ∧
    (RegTerm.smul (-2) (RegTerm.quad 1 (.num 1) (some "damping") none 1
        (1 : Mat 1 1))).gradient ⟨[1], [2]⟩ = .ok ([4].map (fun x => (-2) * x)) ∧
    (RegTerm.smul (-2) (RegTerm.quad 1 (.num 1) (some "damping") none 1
        (1 : Mat 1 1))).hessian ⟨[1], [2]⟩ =
      .ok ([[2]].map (List.map (fun x => (-2) * x))) ∧
    rmulReg .nonNumeric (RegTerm.quad 1 (.num 1) (some "damping") none 1 (1 : Mat 1 1)) =
      .error .typeError :=
  composite_smul_forwards (-2) _ _ 4
    (by simp [RegTerm.reg, validateModel, SizeArg.size, vecOfList, Matrix.dotProduct,
      Fin.sum_univ_one] <;> norm_num)
    [4]
    (by simp [RegTerm.gradient, validateModel, SizeArg.size, vecOfList, listOfVec,
      List.ofFn_succ] <;> norm_num)
    [[2]]
    (by simp [RegTerm.hessian, SizeArg.size, listsOfMat, List.ofFn_succ, Matrix.smul_apply,
      Matrix.one_apply])

/-- C3: for every Lp-norm term (order `p > 0`, weighting matrix `D`, optional
reference model) and every model of the correct flattened size, `reg` returns
the sum of `|d_i| ^ p` for `d = D @ (flatten(m) - m0)` (with `m0 = 0` when no
reference model is stored), `gradient` returns `D^T @ (p * |d|^(p-1) * sign d)`
and `hessian` returns `D^T @ diag(p * (p-1) * |d|^(p-2)) @ D`. -/
theorem lp_eval_formulas (p : ℝ) (shape : List ℕ) (rows : ℕ)
    (D : Mat rows shape.prod) (m0 : Option NDArray) (m : NDArray)
    (hp : 0 < p)
    (hm : m.data.length = shape.prod)
    (hm0 : ∀ a, m0 = some a → a.data.length = shape.prod) :
    (RegTerm.lp p shape rows D m0).reg m =
      .ok (∑ i, |(D *ᵥ specResidual shape.prod m.data m0) i| ^ p) ∧
    (RegTerm.lp p shape rows D m0).gradient m =
      .ok (listOfVec (Dᵀ *ᵥ fun i =>
        p * |(D *ᵥ specResidual shape.prod m.data m0) i| ^ (p - 1) *
          Real.sign ((D *ᵥ specResidual shape.prod m.data m0) i))) ∧
    (RegTerm.lp p shape rows D m0).hessian m =
      .ok (listsOfMat (Dᵀ *
        Matrix.diagonal (fun i =>
          p * (p - 1) * |(D *ᵥ specResidual shape.prod m.data m0) i| ^ (p - 2)) * D)) := by
  have hdiff : modelDiffToRef shape.prod (vecOfList shape.prod m.data) m0 =
      .ok (specResidual shape.prod m.data m0) := by
    cases m0 with
    | none =>
      simp [modelDiffToRef, specResidual]
    | some a =>
      have ha := hm0 a rfl
      simp only [modelDiffToRef, npSubVL, ha, if_true]
      rfl
  refine ⟨?_, ?_, ?_⟩
  · simp [RegTerm.reg, validateModel, hm, hdiff, lpNorm]
  · simp [RegTerm.gradient, validateModel, hm, hdiff]
    rfl
  · simp [RegTerm.hessian, validateModel, hm, hdiff]
    rfl

/-- Witness for C3 at `p = 2`, identity weighting of size two, no reference
model and the model `[1, 2]`. -/
theorem lp_eval_formulas_witness :
    (RegTerm.lp 2 [2] (([2] : List ℕ).prod)
        (1 : Mat (([2] : List ℕ).prod) (([2] : List ℕ).prod)) none).reg ⟨[2], [1, 2]⟩ =
      .ok (∑ i, |((1 : Mat (([2] : List ℕ).prod) (([2] : List ℕ).prod)) *ᵥ
        specResidual (([2] : List ℕ).prod) [1, 2] none) i| ^ (2 : ℝ)) ∧
    (RegTerm.lp 2 [2] (([2] : List ℕ).prod)
        (1 : Mat (([2] : List ℕ).prod) (([2] : List ℕ).prod)) none).gradient ⟨[2], [1, 2]⟩ =
      .ok (listOfVec ((1 : Mat (([2] : List ℕ).prod) (([2] : List ℕ).prod))ᵀ *ᵥ fun i =>
        (2 : ℝ) * |((1 : Mat (([2] : List ℕ).prod) (([2] : List ℕ).prod)) *ᵥ
            specResidual (([2] : List ℕ).prod) [1, 2] none) i| ^ ((2 : ℝ) - 1) *
          Real.sign (((1 : Mat (([2] : List ℕ).prod) (([2] : List ℕ).prod)) *ᵥ
            specResidual (([2] : List ℕ).prod) [1, 2] none) i))) ∧
    (RegTerm.lp 2 [2] (([2] : List ℕ).prod)
        (1 : Mat (([2] : List ℕ).prod) (([2] : List ℕ).prod)) none).hessian ⟨[2], [1, 2]⟩ =
      .ok (listsOfMat ((1 : Mat (([2] : List ℕ).prod) (([2] : List ℕ).prod))ᵀ *
        Matrix.diagonal (fun i =>
          (2 : ℝ) * ((2 : ℝ) - 1) * |((1 : Mat (([2] : List ℕ).prod) (([2] : List ℕ).prod)) *ᵥ
            specResidual (([2] : List ℕ).prod) [1, 2] none) i| ^ ((2 : ℝ) - 2)) *
        (1 : Mat (([2] : List ℕ).prod) (([2] : List ℕ).prod)))) :=
  lp_eval_formulas 2 [2] (([2] : List ℕ).prod) 1 none ⟨[2], [1, 2]⟩ (by norm_num) rfl
    (fun a h => nomatch h)

/-- C4: for every constructed `QuadraticReg` term its Hessian ignores the model
entirely (any two models give the identical matrix) and equals
`2 * factor * D^T D`; on the damping branch `D` is the identity of size
`model_size`, so this is `2 * factor * I`. -/
theorem quad_hessian_constant (factor : ℚ) (msize : SizeArg) (rt : Option String)
    (refM byo : Option NDArray) (f : ℝ) (ms : SizeArg) (rt2 : Option String)
    (rm : Option NDArray) (rows : ℕ) (D : Mat rows ms.size)
    (h : quadConstruct factor msize rt refM byo = .ok (.quad f ms rt2 rm rows D))
    (m m2 : NDArray) :
    (RegTerm.quad f ms rt2 rm rows D).hessian m =
      (RegTerm.quad f ms rt2 rm rows D).hessian m2 ∧
    (RegTerm.quad f ms rt2 rm rows D).hessian m =
      .ok (listsOfMat (((2 * f) • Dᵀ) * D)) := by
  refine ⟨rfl, ?_⟩
  rw [quadConstruct] at h
  split at h
  · exact absurd h (by simp)
  split at h
  swap
  · exact absurd h (by simp)
  rw [quadGenMatrix.eq_def] at h
  split at h
  · split at h
    · rw [Except.ok.injEq, RegTerm.quad.injEq] at h
      obtain ⟨hf, hms, hrt, hrm, hrows, hD⟩ := h
      subst hms; subst hf; subst hrt; subst hrm; subst hrows
      have hDe := eq_of_heq hD; subst hDe
      simp [RegTerm.hessian, Matrix.transpose_one]
    · exact absurd h (by simp)
  · rename_i rt0 s hs hv
    have hne : ¬((some s : Option String) = some "damping") :=
      fun hc => hs (Option.some.inj hc)
    split at h
    · split at h
      · exact absurd h (by simp)
      · rw [Except.ok.injEq, RegTerm.quad.injEq] at h
        obtain ⟨hf, hms, hrt, hrm, hrows, hD⟩ := h
        subst hms; subst hf; subst hrt; subst hrm; subst hrows
        have hDe := eq_of_heq hD; subst hDe
        simp [RegTerm.hessian, hne]
    · split at h
      · exact absurd h (by simp)
      · split at h
        · exact absurd h (by simp)
        · rw [Except.ok.injEq, RegTerm.quad.injEq] at h
          obtain ⟨hf, hms, hrt, hrm, hrows, hD⟩ := h
          subst hms; subst hf; subst hrt; subst hrm; subst hrows
          have hDe := eq_of_heq hD; subst hDe
          simp [RegTerm.hessian, hne]
      · exact absurd h (by simp)
  · split at h
    · exact absurd h (by simp)
    · split at h
      · rw [Except.ok.injEq, RegTerm.quad.injEq] at h
        obtain ⟨hf, hms, hrt, hrm, hrows, hD⟩ := h
        subst hms; subst hf; subst hrt; subst hrm; subst hrows
        have hDe := eq_of_heq hD; subst hDe
        simp [RegTerm.hessian, Matrix.transpose_one]
      · split at h
        · exact absurd h (by simp)
        · split at h
          · exact absurd h (by simp)
          · rw [Except.ok.injEq, RegTerm.quad.injEq] at h
            obtain ⟨hf, hms, hrt, hrm, hrows, hD⟩ := h
            subst hms; subst hf; subst hrt; subst hrm; subst hrows
            have hDe := eq_of_heq hD; subst hDe
            simp [RegTerm.hessian]

/-- Witness for C4 at a damping term of size two and two different models. -/
theorem quad_hessian_constant_witness :
    (RegTerm.quad ((1 : ℚ) : ℝ) (.num 2) (some "damping") none 2
        (1 : Mat 2 2)).hessian ⟨[2], [1, 2]⟩ =
      (RegTerm.quad ((1 : ℚ) : ℝ) (.num 2) (some "damping") none 2
        (1 : Mat 2 2)).hessian ⟨[1], [5]⟩ ∧
    (RegTerm.quad ((1 : ℚ) : ℝ) (.num 2) (some "damping") none 2
        (1 : Mat 2 2)).hessian ⟨[2], [1, 2]⟩ =
      .ok (listsOfMat (((2 * ((1 : ℚ) : ℝ)) • (1 : Mat 2 2)ᵀ) * (1 : Mat 2 2))) :=
  quad_hessian_constant 1 (.num 2) (some "damping") none none ((1 : ℚ) : ℝ) (.num 2)
    (some "damping") none 2 (1 : Mat 2 2) rfl ⟨[2], [1, 2]⟩ ⟨[1], [5]⟩

/-- C7: the LpNormRegularization 2-D branch contradicts the claim (a code bug):
its guard reads `nx > order + 2 or ny < order + 2` where the sibling
`QuadraticReg` correctly has `nx < order + 2`, and its raise interpolates the
attribute `self._reg_type` that the class never sets.  Consequences shown here
for order-1 (flattening): a (4, 4) grid — both axes well above the minimum of 3
— is rejected (with the crash of the raise itself), while a (2, 4) grid with a
too-small x-axis is accepted; `QuadraticReg` behaves exactly as the claim says,
rejecting (2, 4) with the configuration ValueError and accepting (4, 4) with
the row-stack of the two `(nx*ny) x (nx*ny)` derivative operators. -/
theorem lp_2d_guard_bug :
    lpNormConstruct 2 (.str "flattening") (some [4, 4]) none = .error .attributeError ∧
    lpNormConstruct 2 (.str "flattening") (some [2, 4]) none =
      .ok (RegTerm.lp ((2 : ℚ) : ℝ) [2, 4]
        (([2, 4] : List ℕ).prod + ([2, 4] : List ℕ).prod)
        (vstackMat (fd2Dx 1 2 4 (([2, 4] : List ℕ).prod))
          (fd2Dy 1 4 (([2, 4] : List ℕ).prod))) none) ∧
    quadConstruct 1 (.shape [2, 4]) (some "flattening") none none =
      .error .valueError ∧
    quadConstruct 1 (.shape [4, 4]) (some "flattening") none none =
      .ok (RegTerm.quad ((1 : ℚ) : ℝ) (.shape [4, 4]) (some "flattening") none
        (([4, 4] : List ℕ).prod + ([4, 4] : List ℕ).prod)
        (vstackMat (fd2Dx 1 4 4 (([4, 4] : List ℕ).prod))
          (fd2Dy 1 4 (([4, 4] : List ℕ).prod)))) :=
  ⟨rfl, rfl, rfl, rfl⟩

/-- C8 (counterexample): constructing a damping `QuadraticReg` of size three
with a reference model of size two succeeds — the reference model is stored
untouched, not validated against `model_shape` and not rejected with a
DimensionMismatchError, refuting the claim. -/
theorem quad_refmodel_not_validated :
    quadConstruct 1 (.num 3) (some "damping") (some ⟨[2], [1, 1]⟩) none =
      .ok (RegTerm.quad ((1 : ℚ) : ℝ) (.num 3) (some "damping") (some ⟨[2], [1, 1]⟩) 3
        (1 : Mat 3 3)) ∧
    quadConstruct 1 (.num 3) (some "damping") (some ⟨[2], [1, 1]⟩) none ≠
      .error .dimensionMismatch := by
  constructor
  · rfl
  · intro hcontra
    have he : (Except.ok (RegTerm.quad ((1 : ℚ) : ℝ) (.num 3) (some "damping")
        (some ⟨[2], [1, 1]⟩) 3 (1 : Mat 3 3)) : Except RegError RegTerm) =
        .error .dimensionMismatch := by
      rw [← hcontra]; rfl
    exact Except.noConfusion he

/-- C8 (amended): `QuadraticReg` performs no validation of the reference model
at construction: for every reference model whatsoever — matching or not, of
any shape — construction succeeds and stores the array untouched, so no
DimensionMismatchError is ever raised there.  (What a mismatch does at
evaluation time varies with numpy broadcasting and is not claimed: a
1-D-incompatible reference raises a broadcasting ValueError, while length-one
or trailing-dimension-compatible references proceed silently.) -/
theorem quad_refmodel_stored_unvalidated (factor : ℚ) (hf : 0 ≤ factor) (n : ℕ)
    (ref : NDArray) :
    quadConstruct factor (.num n) (some "damping") (some ref) none =
      .ok (RegTerm.quad (factor : ℝ) (.num n) (some "damping") (some ref) n
        (1 : Mat n n)) := by
  rw [quadConstruct, if_neg hf.not_lt]
  rfl

/-- Witness for the amended C8: a size-three damping term accepts a reference
model of shape `(2, 3)` at construction. -/
theorem quad_refmodel_stored_unvalidated_witness :
    quadConstruct 1 (.num 3) (some "damping")
        (some ⟨[2, 3], [0, 0, 0, 0, 0, 0]⟩) none =
      .ok (RegTerm.quad ((1 : ℚ) : ℝ) (.num 3) (some "damping")
        (some ⟨[2, 3], [0, 0, 0, 0, 0, 0]⟩) 3 (1 : Mat 3 3)) :=
  quad_refmodel_stored_unvalidated 1 (by norm_num) 3 ⟨[2, 3], [0, 0, 0, 0, 0, 0]⟩

/-- C9: constructing a `QuadraticReg` with `reg_type = "damping"` (or
`reg_type = None` for bring-your-own weighting) and a shape tuple as
`model_size` raises the construction-time ValueError demanding a plain number,
while a plain number is accepted. -/
theorem quad_damping_size_must_be_number (factor : ℚ) (hf : 0 ≤ factor)
    (l : List ℕ) (refM byo : Option NDArray) (n : ℕ) (refM2 : Option NDArray) :
    quadConstruct factor (.shape l) (some "damping") refM byo = .error .valueError ∧
    quadConstruct factor (.shape l) none refM byo = .error .valueError ∧
    quadConstruct factor (.num n) (some "damping") refM2 none =
      .ok (RegTerm.quad (factor : ℝ) (.num n) (some "damping") refM2 n (1 : Mat n n)) := by
  refine ⟨?_, ?_, ?_⟩ <;> (rw [quadConstruct, if_neg hf.not_lt]; rfl)

/-- Witness for C9 at factor one, shape `(3,)` versus number `3`. -/
theorem quad_damping_size_must_be_number_witness :
    quadConstruct 1 (.shape [3]) (some "damping") none none = .error .valueError ∧
    quadConstruct 1 (.shape [3]) none none none = .error .valueError ∧
    quadConstruct 1 (.num 3) (some "damping") none none =
      .ok (RegTerm.quad ((1 : ℚ) : ℝ) (.num 3) (some "damping") none 3 (1 : Mat 3 3)) :=
  quad_damping_size_must_be_number 1 (by norm_num) [3] none none 3 none

/-- C10: `LpNormRegularization` resolves its model shape at construction: with
neither `model_shape` nor `reference_model` it raises a ValueError; with only a
reference model the shape becomes `reference_model.shape`; with both and a
shape mismatch it raises DimensionMismatchError; otherwise the given
`model_shape` is kept. -/
theorem lp_shape_resolution (p : ℚ) (hp : 0 < p) (wm : WeightingArg)
    (s : List ℕ) (ref ref2 : NDArray) (hne : ref.shape ≠ s) (heq : ref2.shape = s) :
    lpNormConstruct p wm none none = .error .valueError ∧
    lpNormConstruct p (.str "damping") none (some ref) =
      .ok (RegTerm.lp (p : ℝ) ref.shape ref.shape.prod 1 (some ref)) ∧
    lpNormConstruct p wm (some s) (some ref) = .error .dimensionMismatch ∧
    lpNormConstruct p (.str "damping") (some s) none =
      .ok (RegTerm.lp (p : ℝ) s s.prod 1 none) ∧
    lpNormConstruct p (.str "damping") (some s) (some ref2) =
      .ok (RegTerm.lp (p : ℝ) s s.prod 1 (some ref2)) := by
  refine ⟨?_, ?_, ?_, ?_, ?_⟩
  · rw [lpNormConstruct, if_neg hp.not_le]; rfl
  · rw [lpNormConstruct, if_neg hp.not_le]; rfl
  · rw [lpNormConstruct, if_neg hp.not_le]
    simp [validateShape, hne]
  · rw [lpNormConstruct, if_neg hp.not_le]; rfl
  · rw [lpNormConstruct, if_neg hp.not_le]
    simp [validateShape, heq]
    rfl

/-- Witness for C10 at `p = 2`, shape `(3,)`, and reference models of shapes
`(2,)` and `(3,)`. -/
theorem lp_shape_resolution_witness :
    lpNormConstruct 2 (.str "damping") none none = .error .valueError ∧
    lpNormConstruct 2 (.str "damping") none (some ⟨[2], [0, 0]⟩) =
      .ok (RegTerm.lp ((2 : ℚ) : ℝ) ([2] : List ℕ) (([2] : List ℕ)).prod 1
        (some ⟨[2], [0, 0]⟩)) ∧
    lpNormConstruct 2 (.str "damping") (some [3]) (some ⟨[2], [0, 0]⟩) =
      .error .dimensionMismatch ∧
    lpNormConstruct 2 (.str "damping") (some [3]) none =
      .ok (RegTerm.lp ((2 : ℚ) : ℝ) [3] (([3] : List ℕ)).prod 1 none) ∧
    lpNormConstruct 2 (.str "damping") (some [3]) (some ⟨[3], [0, 0, 0]⟩) =
      .ok (RegTerm.lp ((2 : ℚ) : ℝ) [3] (([3] : List ℕ)).prod 1
        (some ⟨[3], [0, 0, 0]⟩)) :=
  lp_shape_resolution 2 (by decide) (.str "damping") [3] ⟨[2], [0, 0]⟩ ⟨[3], [0, 0, 0]⟩
    (by decide) rfl
